import Mathlib

/-!
Verification development for the pe32solaredge_scrape repository
(single Python source file pe32solaredge_scrape.py).

The Python program is shallowly embedded: pure functions become Lean
functions, I/O (HTTP responses, the on-disk cache file, the cookie-jar
file, the database connection) becomes explicit state passed in and out,
and Python exceptions become the error side of Except.  Machine floats of
the source are modelled as rationals; JSON documents are modelled by an
explicit AST, and json.loads by an executable fuelled parser.
-/

/-- An HTTP response as seen by the fetcher: requests gives a status code
and a body text. -/
structure Response where
  status_code : Nat
  text : String
deriving DecidableEq, Repr

/-- Database errors raised by psycopg2: the unique-constraint violation
(psycopg2.IntegrityError) and any other database error. -/
inductive DbErr where
  | integrityError
  | otherError
deriving DecidableEq, Repr

/-- Python exceptions that the embedded functions can raise. -/
inductive PyErr where
  | assertionError
  | valueError
  | keyError (k : String)
  | typeError
  | attributeError
  | indexError
  | nonExistentTimeError
  | connectionError
  | binasciiError
  | unicodeDecodeError
  | fetchValueError (r1 r2 : Response) (t1 t2 : String)
  | dbError (e : DbErr)
deriving DecidableEq, Repr

/-- Explicit bind on Except, used so that every definition unfolds by its
own equation lemmas. -/
def exBind : Except PyErr α → (α → Except PyErr β) → Except PyErr β
  | .error e, _ => .error e
  | .ok v, f => f v

/-- The opening-brace character, written by code point to keep it out of
character literals. -/
def lbraceChar : Char := Char.ofNat 123

/-- The closing-brace character. -/
def rbraceChar : Char := Char.ofNat 125

/-- The double-quote character. -/
def dquoteChar : Char := Char.ofNat 34

/-- The backslash character. -/
def bslashChar : Char := Char.ofNat 92

/-- An exact rational number in unreduced form (numerator and positive
denominator), the model of a Python int or float carried by a JSON
document.  Kept unreduced so that every arithmetic step is structural. -/
structure PyNum where
  num : Int
  den : Nat
deriving DecidableEq, Repr

/-- A JSON document, the result of json.loads.  Numbers are modelled as
exact rationals (Python ints and floats are not distinguished). -/
inductive Json where
  | null
  | bool (b : Bool)
  | num (q : PyNum)
  | str (s : String)
  | arr (xs : List Json)
  | obj (members : List (String × Json))

/-- JSON whitespace accepted between tokens by Python's json module. -/
def isJsonWs (c : Char) : Bool :=
  c == ' ' || c == '\t' || c == '\n' || c == '\r'

/-- Value of a decimal digit character. -/
def digitVal (c : Char) : Option Nat :=
  if c.isDigit then some (c.toNat - 48) else none

/-- Value of a hexadecimal digit character. -/
def hexVal (c : Char) : Option Nat :=
  if c.isDigit then some (c.toNat - 48)
  else if 'a' ≤ c && c ≤ 'f' then some (c.toNat - 97 + 10)
  else if 'A' ≤ c && c ≤ 'F' then some (c.toNat - 65 + 10)
  else none

/-- Digits to a natural number (most significant first). -/
def digitsToNat (ds : List Char) : Nat :=
  ds.foldl (fun a c => 10 * a + (c.toNat - 48)) 0

/-- Whether a list of characters starts with another list. -/
def listStartsWith : List Char → List Char → Bool
  | [], _ => true
  | _ :: _, [] => false
  | a :: as, b :: bs => a == b && listStartsWith as bs

/-- Python substring test, needle in haystack. -/
def listContainsSub (needle : List Char) : List Char → Bool
  | [] => needle.isEmpty
  | c :: rest => listStartsWith needle (c :: rest) || listContainsSub needle rest

/-- Python substring test on strings: models the expression
needle in haystack of the source. -/
def strIn (needle hay : String) : Bool :=
  listContainsSub needle.data hay.data

/-- Insert a key/value member with Python-dict semantics: replace an
existing key in place, otherwise append. -/
def dictInsert (ms : List (String × Json)) (k : String) (v : Json) :
    List (String × Json) :=
  if ms.any (fun p => p.1 == k) then
    ms.map (fun p => if p.1 == k then (p.1, v) else p)
  else ms ++ [(k, v)]

/-- Parse the content of a JSON string literal after the opening quote;
returns the decoded characters and the input after the closing quote.
Models Python's strict json string scanner for the standard escapes
(surrogate pairing of u-escapes is not modelled; no claim touches it). -/
def jsonStringRest : Nat → List Char → Option (List Char × List Char)
  | 0, _ => none
  | Nat.succ n, cs =>
    match cs with
    | [] => none
    | c :: rest =>
      if c == dquoteChar then some ([], rest)
      else if c == bslashChar then
        match rest with
        | [] => none
        | e :: rest2 =>
          if e == dquoteChar then
            (jsonStringRest n rest2).map (fun p => (dquoteChar :: p.1, p.2))
          else if e == bslashChar then
            (jsonStringRest n rest2).map (fun p => (bslashChar :: p.1, p.2))
          else if e == '/' then
            (jsonStringRest n rest2).map (fun p => ('/' :: p.1, p.2))
          else if e == 'b' then
            (jsonStringRest n rest2).map (fun p => (Char.ofNat 8 :: p.1, p.2))
          else if e == 'f' then
            (jsonStringRest n rest2).map (fun p => (Char.ofNat 12 :: p.1, p.2))
          else if e == 'n' then
            (jsonStringRest n rest2).map (fun p => ('\n' :: p.1, p.2))
          else if e == 'r' then
            (jsonStringRest n rest2).map (fun p => ('\r' :: p.1, p.2))
          else if e == 't' then
            (jsonStringRest n rest2).map (fun p => ('\t' :: p.1, p.2))
          else if e == 'u' then
            match rest2 with
            | h1 :: h2 :: h3 :: h4 :: rest3 =>
              match hexVal h1, hexVal h2, hexVal h3, hexVal h4 with
              | some a, some b, some c2, some d =>
                (jsonStringRest n rest3).map
                  (fun p => (Char.ofNat (4096 * a + 256 * b + 16 * c2 + d) :: p.1, p.2))
              | _, _, _, _ => none
            | _ => none
          else none
      else if c.toNat < 32 then none
      else (jsonStringRest n rest).map (fun p => (c :: p.1, p.2))

/-- Parse a JSON number (strict grammar of the json module: optional minus,
integer part without leading zeros, optional fraction, optional exponent).
The special constants NaN and Infinity are not modelled. -/
def jsonNumber (cs : List Char) : Option (PyNum × List Char) :=
  let signed : Bool × List Char :=
    match cs with
    | c :: rest => if c == '-' then (true, rest) else (false, cs)
    | [] => (false, [])
  let neg := signed.1
  let cs1 := signed.2
  let intDs := cs1.takeWhile Char.isDigit
  let cs2 := cs1.dropWhile Char.isDigit
  if intDs.isEmpty then none
  else if intDs.length > 1 && intDs.head? == some '0' then none
  else
    let fracPart : Option (List Char × List Char) :=
      match cs2 with
      | c :: rest =>
        if c == '.' then
          let ds := rest.takeWhile Char.isDigit
          if ds.isEmpty then none else some (ds, rest.dropWhile Char.isDigit)
        else some ([], cs2)
      | [] => some ([], cs2)
    match fracPart with
    | none => none
    | some (fracDs, cs3) =>
      let expPart : Option (Bool × List Char × List Char) :=
        match cs3 with
        | c :: rest =>
          if c == 'e' || c == 'E' then
            let signed2 : Bool × List Char :=
              match rest with
              | c2 :: rest2 =>
                if c2 == '-' then (true, rest2)
                else if c2 == '+' then (false, rest2)
                else (false, rest)
              | [] => (false, [])
            let ds := signed2.2.takeWhile Char.isDigit
            if ds.isEmpty then none
            else some (signed2.1, ds, signed2.2.dropWhile Char.isDigit)
          else some (false, [], cs3)
        | [] => some (false, [], cs3)
      match expPart with
      | none => none
      | some (eneg, expDs, cs4) =>
        let mantNum : Nat := digitsToNat intDs * 10 ^ fracDs.length +
          digitsToNat fracDs
        let e := digitsToNat expDs
        let n : Nat := if eneg then mantNum else mantNum * 10 ^ e
        let d : Nat := if eneg then 10 ^ fracDs.length * 10 ^ e
          else 10 ^ fracDs.length
        some (⟨if neg then -(n : Int) else (n : Int), d⟩, cs4)

mutual

/-- Parse one JSON value (fuelled recursion; fuel bounds nesting). -/
def jsonValue : Nat → List Char → Option (Json × List Char)
  | 0, _ => none
  | Nat.succ n, cs =>
    match cs.dropWhile (fun c => isJsonWs c) with
    | [] => none
    | c :: rest =>
      if c == lbraceChar then jsonObjBody n [] rest
      else if c == '[' then jsonArrBody n [] rest
      else if c == dquoteChar then
        (jsonStringRest n rest).map (fun p => (Json.str (String.mk p.1), p.2))
      else if c == 't' then
        if listStartsWith ['r', 'u', 'e'] rest then
          some (Json.bool true, rest.drop 3)
        else none
      else if c == 'f' then
        if listStartsWith ['a', 'l', 's', 'e'] rest then
          some (Json.bool false, rest.drop 4)
        else none
      else if c == 'n' then
        if listStartsWith ['u', 'l', 'l'] rest then
          some (Json.null, rest.drop 3)
        else none
      else if c == '-' || c.isDigit then
        (jsonNumber (c :: rest)).map (fun p => (Json.num p.1, p.2))
      else none

/-- Parse the members of a JSON object after the opening brace, with the
members accumulated so far (Python-dict semantics for duplicate keys). -/
def jsonObjBody : Nat → List (String × Json) → List Char →
    Option (Json × List Char)
  | 0, _, _ => none
  | Nat.succ n, acc, cs =>
    match cs.dropWhile (fun c => isJsonWs c) with
    | [] => none
    | c :: rest =>
      if c == rbraceChar then
        if acc.isEmpty then some (Json.obj [], rest)
        else none
      else if c == dquoteChar then
        match jsonStringRest n rest with
        | none => none
        | some (key, rest2) =>
          match rest2.dropWhile (fun c2 => isJsonWs c2) with
          | ':' :: rest3 =>
            match jsonValue n rest3 with
            | none => none
            | some (v, rest4) =>
              let acc2 := dictInsert acc (String.mk key) v
              match rest4.dropWhile (fun c2 => isJsonWs c2) with
              | ',' :: rest5 => jsonObjBody n acc2 rest5
              | c2 :: rest5 =>
                if c2 == rbraceChar then some (Json.obj acc2, rest5) else none
              | [] => none
          | _ => none
      else none

/-- Parse the elements of a JSON array after the opening bracket. -/
def jsonArrBody : Nat → List Json → List Char → Option (Json × List Char)
  | 0, _, _ => none
  | Nat.succ n, acc, cs =>
    match cs.dropWhile (fun c => isJsonWs c) with
    | c :: rest =>
      if c == ']' then
        if acc.isEmpty then some (Json.arr [], rest) else none
      else
        match jsonValue n cs with
        | none => none
        | some (v, rest2) =>
          match rest2.dropWhile (fun c2 => isJsonWs c2) with
          | ',' :: rest3 => jsonArrBody n (acc ++ [v]) rest3
          | c2 :: rest3 =>
            if c2 == ']' then some (Json.arr (acc ++ [v]), rest3) else none
          | [] => none
    | [] => none

end

/-- Model of json.loads: parse a complete document, requiring only
whitespace after it; any failure is the json module's ValueError. -/
def loads (t : String) : Except PyErr Json :=
  match jsonValue (t.data.length + 1) t.data with
  | none => .error .valueError
  | some (v, rest) =>
    if (rest.dropWhile (fun c => isJsonWs c)).isEmpty then .ok v
    else .error .valueError

/-- A naive civil date-time (no timezone attached), as produced by
datetime.strptime in the source. -/
structure NaiveDT where
  year : Nat
  month : Nat
  day : Nat
  hour : Nat
  minute : Nat
  second : Nat
deriving DecidableEq, Repr

/-- Gregorian leap-year rule. -/
def isLeap (y : Nat) : Bool :=
  y % 4 == 0 && (y % 100 != 0 || y % 400 == 0)

/-- Length of a month. -/
def monthLength (leap : Bool) (m : Nat) : Nat :=
  match m with
  | 1 => 31
  | 2 => if leap then 29 else 28
  | 3 => 31
  | 4 => 30
  | 5 => 31
  | 6 => 30
  | 7 => 31
  | 8 => 31
  | 9 => 30
  | 10 => 31
  | 11 => 30
  | 12 => 31
  | _ => 0

/-- Days in the months of year y strictly before month m. -/
def daysBeforeMonth (y m : Nat) : Nat :=
  (List.range (m - 1)).foldl (fun a i => a + monthLength (isLeap y) (i + 1)) 0

/-- Days from 0001-01-01 (proleptic Gregorian) to the given civil date. -/
def daysFromCivil (y m d : Nat) : Nat :=
  365 * (y - 1) + (y - 1) / 4 - (y - 1) / 100 + (y - 1) / 400 +
    daysBeforeMonth y m + (d - 1)

/-- Civil date from a count of days since 0001-01-01 (inverse of
daysFromCivil, via the standard era decomposition). -/
def civilFromDays (n : Nat) : Nat × Nat × Nat :=
  let z := n + 306
  let era := z / 146097
  let doe := z % 146097
  let yoe := (doe - doe / 1460 + doe / 36524 - doe / 146096) / 365
  let y := yoe + era * 400
  let doy := doe - (365 * yoe + yoe / 4 - yoe / 100)
  let mp := (5 * doy + 2) / 153
  let d := doy - (153 * mp + 2) / 5 + 1
  let m := if mp < 10 then mp + 3 else mp - 9
  (if m ≤ 2 then y + 1 else y, m, d)

/-- Seconds from 0001-01-01 00:00:00 to the given naive civil time. -/
def toSecs (dt : NaiveDT) : Int :=
  (daysFromCivil dt.year dt.month dt.day : Int) * 86400 +
    (dt.hour : Int) * 3600 + (dt.minute : Int) * 60 + (dt.second : Int)

/-- Naive civil time from a count of seconds since 0001-01-01 00:00:00.
Negative inputs (before year 1, where the source's datetime would
overflow) clamp to the epoch; no claim reaches them. -/
def fromSecsI (t : Int) : NaiveDT :=
  let n := t.toNat
  let days := n / 86400
  let rem := n % 86400
  let c := civilFromDays days
  ⟨c.1, c.2.1, c.2.2, rem / 3600, rem % 3600 / 60, rem % 60⟩

/-- Day of the last Sunday of the given month. -/
def lastSunday (y m : Nat) : Nat :=
  let dim := monthLength (isLeap y) m
  dim - ((daysFromCivil y m dim % 7 + 1) % 7)

/-- Model of the source's dt_naive_to_local (pytz branch) for
Europe/Amsterdam: attaches the UTC offset in seconds.  The EU daylight
rule in force since 1996 is modelled (CET outside the last-Sunday-of-March
to last-Sunday-of-October window, CEST inside it); pre-1977 historical
offsets of the tz database are not.  A time in the spring-forward gap
raises NonExistentTimeError (the source only catches AmbiguousTimeError);
an ambiguous fall-back time takes the source's is_dst=False branch, CET. -/
def dt_naive_to_local (dt : NaiveDT) : Except PyErr (NaiveDT × Int) :=
  let L := toSecs dt
  let gapS := toSecs ⟨dt.year, 3, lastSunday dt.year 3, 2, 0, 0⟩
  let ambS := toSecs ⟨dt.year, 10, lastSunday dt.year 10, 2, 0, 0⟩
  if gapS ≤ L ∧ L < gapS + 3600 then .error .nonExistentTimeError
  else if ambS ≤ L ∧ L < ambS + 3600 then .ok (dt, 3600)
  else if gapS + 3600 ≤ L ∧ L < ambS then .ok (dt, 7200)
  else .ok (dt, 3600)

/-- Model of the source's dt_local_to_utc: convert a localized time (wall
time plus UTC offset) to UTC civil time. -/
def dt_local_to_utc (l : NaiveDT × Int) : NaiveDT :=
  fromSecsI (toSecs l.1 - l.2)

/-- Python's s.split(chr(46), 1)[0]: the part of the string before the
first dot. -/
def pySplitDot (s : String) : String :=
  String.mk (s.data.takeWhile (fun c => c != '.'))

/-- Two decimal digit characters to their value. -/
def twoDigits (a b : Char) : Option Nat :=
  match digitVal a, digitVal b with
  | some x, some y => some (10 * x + y)
  | _, _ => none

/-- Model of datetime.strptime(s, the %Y-%m-%d %H:%M:%S format) on a
19-character string: fixed positions (4-digit year forces 2-digit fields),
with the calendar validation the datetime constructor performs. -/
def strptime19 (s : String) : Except PyErr NaiveDT :=
  match s.data with
  | [y1, y2, y3, y4, c1, a1, a2, c2, b1, b2, c3, h1, h2, c4, m1, m2, c5, e1, e2] =>
    if c1 == '-' && c2 == '-' && c3 == ' ' && c4 == ':' && c5 == ':' then
      match twoDigits y1 y2, twoDigits y3 y4, twoDigits a1 a2, twoDigits b1 b2,
          twoDigits h1 h2, twoDigits m1 m2, twoDigits e1 e2 with
      | some yh, some yl, some mo, some dy, some hh, some mi, some se =>
        let y := 100 * yh + yl
        if 1 ≤ y && 1 ≤ mo && mo ≤ 12 && 1 ≤ dy &&
            dy ≤ monthLength (isLeap y) mo && hh ≤ 23 && mi ≤ 59 && se ≤ 59 then
          .ok ⟨y, mo, dy, hh, mi, se⟩
        else .error .valueError
      | _, _, _, _, _, _, _ => .error .valueError
    else .error .valueError
  | _ => .error .valueError

/-- The reading produced by parse_api_v3_js.  lastUpdateTime has been
converted to UTC; the three remaining fields are passed through unchanged
from the JSON document (the source performs no numeric conversion). -/
structure Parsed where
  lastUpdateTime : NaiveDT
  lifeTimeEnergy : Json
  lastDayEnergy : Json
  currentPower : Json

/-- Python dict subscription on a JSON value: KeyError for a missing key,
TypeError when the value is not an object. -/
def jsonGet : Json → String → Except PyErr Json
  | .obj ms, k =>
    match ms.find? (fun p => p.1 == k) with
    | some p => .ok p.2
    | none => .error (.keyError k)
  | _, _ => .error .typeError

/-- Requires a JSON string (the source calls .split on the value, which
fails with AttributeError on any other type). -/
def jsonAsStr : Json → Except PyErr String
  | .str s => .ok s
  | _ => .error .attributeError

/-- The timestamp part of parse_api_v3_js: truncate at the first dot,
assert the remainder has exactly 19 characters, parse it, localize it to
Europe/Amsterdam, convert to UTC. -/
def parse_ts (lut : String) : Except PyErr NaiveDT :=
  let lutT := pySplitDot lut
  if lutT.length == 19 then
    exBind (strptime19 lutT) (fun naive =>
      exBind (dt_naive_to_local naive) (fun l => .ok (dt_local_to_utc l)))
  else .error .assertionError

/-- Body of parse_api_v3_js on the inner fieldOverview object: timestamp
first, then the three pass-through fields, then the unit assertion. -/
def parse_fo (fo : Json) : Except PyErr Parsed :=
  exBind (jsonGet fo ("lastUpdateTime")) (fun lutJ =>
  exBind (jsonAsStr lutJ) (fun lut =>
  exBind (parse_ts lut) (fun utc =>
  exBind (jsonGet fo ("lifeTimeData")) (fun ltd =>
  exBind (jsonGet ltd ("energy")) (fun lte =>
  exBind (jsonGet fo ("lastDayData")) (fun ldd =>
  exBind (jsonGet ldd ("energy")) (fun lde =>
  exBind (jsonGet fo ("currentPower")) (fun cpO =>
  exBind (jsonGet cpO ("currentPower")) (fun cp =>
  exBind (jsonGet cpO ("unit")) (fun unitJ =>
    match unitJ with
    | .str u => if u == "W" then .ok ⟨utc, lte, lde, cp⟩
                else .error .assertionError
    | _ => .error .assertionError))))))))))

/-- parse_api_v3_js after json.loads: navigate the two fieldOverview
levels, then parse the inner object. -/
def parse_loaded (js : Json) : Except PyErr Parsed :=
  exBind (jsonGet js ("fieldOverview")) (fun fo1 =>
  exBind (jsonGet fo1 ("fieldOverview")) (fun fo => parse_fo fo))

/-- Model of parse_api_v3_js: json.loads, then field extraction. -/
def parse_api_v3_js (text : String) : Except PyErr Parsed :=
  exBind (loads text) parse_loaded

/-- The inner fieldOverview object of a payload of the documented shape. -/
def mkFo (ts : String) (lte lde cp : Json) (unit : String) : Json :=
  .obj [("lastUpdateTime", .str ts),
        ("lifeTimeData", .obj [("fieldId", .str ("1")), ("energy", lte)]),
        ("lastDayData", .obj [("fieldId", .str ("1")), ("energy", lde)]),
        ("solarField", .obj [("id", .str ("1"))]),
        ("currentPower", .obj [("currentPower", cp), ("unit", .str unit)])]

/-- A whole payload document of the documented shape. -/
def mkPayload (ts : String) (lte lde cp : Json) (unit : String) : Json :=
  .obj [("siteClassType", .str ("DEFAULT")),
        ("fieldOverview", .obj [("uris", .obj []),
                                ("fieldOverview", mkFo ts lte lde cp unit)])]

/-- requests.cookies.cookiejar_from_dict: one cookie per dict entry. -/
def cookiejar_from_dict (d : List (String × String)) : List (String × String) :=
  d

/-- One step of building a Python dict from cookies: an existing name is
overwritten in place, a new name is appended. -/
def upsertCookie (acc : List (String × String)) (kv : String × String) :
    List (String × String) :=
  if acc.any (fun p => p.1 == kv.1) then
    acc.map (fun p => if p.1 == kv.1 then (p.1, kv.2) else p)
  else acc ++ [kv]

/-- requests.utils.dict_from_cookiejar: the jar folded into a dict. -/
def dict_from_cookiejar (jar : List (String × String)) :
    List (String × String) :=
  jar.foldl upsertCookie []

/-- Model of store_session: the cookie-jar file is overwritten with the
JSON dump of the session's cookie dict. -/
def store_session (jar : List (String × String)) :
    Option (List (String × String)) :=
  some (dict_from_cookiejar jar)

/-- Model of restore_session: a missing cookie-jar file is not an error
and yields an empty session; otherwise the stored dict seeds the jar. -/
def restore_session : Option (List (String × String)) →
    List (String × String)
  | none => []
  | some d => cookiejar_from_dict d

/-- Model of fetch_api_v3_site.  Inputs: the configured cookie mapping,
the cookie-jar file contents, and the responses the two possible GETs
would produce.  Output: the returned body text and the cookie-jar file
after the store_session side effect (cookies set by the server on the
responses are not modelled; no claim depends on them).  The second
condition tests resp.text, the FIRST body, exactly as source line 258
does. -/
def fetch_api_v3_site (webCookies : List (String × String))
    (cookieFile : Option (List (String × String)))
    (resp resp2 : Response) :
    Except PyErr (String × Option (List (String × String))) :=
  let sess0 := restore_session cookieFile
  let sess1 := if sess0.isEmpty then cookiejar_from_dict webCookies else sess0
  if resp.status_code != 200 || !(strIn ("currentPower") resp.text) then
    let sess2 := cookiejar_from_dict webCookies
    if resp2.status_code != 200 || !(strIn ("currentPower") resp.text) then
      .error (.fetchValueError resp resp2 resp.text resp2.text)
    else .ok (resp2.text, store_session sess2)
  else .ok (resp.text, store_session sess1)

/-- The filesystem-and-network state the cache layer sees: the cache file
(body text and modification time), the current clock, and the stream of
outcomes successive calls of fetch_api_v3_site would produce. -/
structure World where
  cache : Option (String × Int)
  now : Int
  fetches : List (Except PyErr String)

/-- Consume the next fetch outcome; an exhausted stream is modelled as a
connection failure. -/
def popFetch (w : World) : Except PyErr String × World :=
  match w.fetches with
  | [] => (.error .connectionError, w)
  | r :: rest => (r, { w with fetches := rest })

/-- The characters Python's str.lstrip removes (the ASCII ones; the
further Unicode space characters play no role in any claim). -/
def isPySpace (c : Char) : Bool :=
  c == ' ' || c == '\t' || c == '\n' || c == '\r' ||
    c == Char.ofNat 11 || c == Char.ofNat 12

/-- The live-fetch arm of fetch_cached_api_v3_site: fetch, overwrite the
cache file with the body, report age zero. -/
def fetchIntoCache (w : World) : Except PyErr (String × Int × World) :=
  match popFetch w with
  | (.error e, _) => .error e
  | (.ok text, w1) => .ok (text, 0, { w1 with cache := some (text, w1.now) })

/-- Model of fetch_cached_api_v3_site: with clear_cache, or with the cache
file absent, go straight to a live fetch; otherwise read the file, derive
the age from its modification time, and trust the body only when its
first non-whitespace character is an opening brace.  Indexing the
stripped text of an all-whitespace body raises IndexError, which the
source does not catch. -/
def fetch_cached_api_v3_site (clear_cache : Bool) (w : World) :
    Except PyErr (String × Int × World) :=
  if clear_cache then fetchIntoCache w
  else
    match w.cache with
    | none => fetchIntoCache w
    | some (text, mtime) =>
      match text.data.dropWhile (fun c => isPySpace c) with
      | [] => .error .indexError
      | c :: _ =>
        if c != lbraceChar then fetchIntoCache w
        else .ok (text, w.now - mtime, w)

/-- Python's comparison of the pass-through currentPower value with the
int 0 (a Python bool is a number, so False == 0 holds). -/
def pyEqZero : Json → Bool
  | .num q => q.num == 0
  | .bool b => !b
  | _ => false

/-- Whether an Except is a success. -/
def exIsOk : Except PyErr α → Bool
  | .ok _ => true
  | .error _ => false

/-- Model of fetch_reasonably_fresh_data (this script copy, the variant
that also serves the publish loop): serve the cached reading when current
power is zero and the cache is younger than 15 minutes, otherwise force a
live re-fetch and re-parse. -/
def fetch_reasonably_fresh_data (w : World) :
    Except PyErr ((Parsed × Bool) × World) :=
  match fetch_cached_api_v3_site false w with
  | .error e => .error e
  | .ok (text, age, w1) =>
    match parse_api_v3_js text with
    | .error e => .error e
    | .ok parsed =>
      if pyEqZero parsed.currentPower && decide (age < 15 * 60) then
        .ok ((parsed, false), w1)
      else
        match fetch_cached_api_v3_site true w1 with
        | .error e => .error e
        | .ok (text2, _, w2) =>
          match parse_api_v3_js text2 with
          | .error e => .error e
          | .ok p2 => .ok ((p2, true), w2)

/-- A scalar value as yaml.safe_load yields it for a cookie entry. -/
inductive Yaml where
  | s (v : String)
  | i (v : Int)
  | b (v : Bool)
  | null
deriving DecidableEq, Repr

/-- Python's str() on such a scalar. -/
def pyStr : Yaml → String
  | .s v => v
  | .i v => toString v
  | .b v => if v then ("True") else ("False")
  | .null => ("None")

/-- The solaredge_web mapping as loaded from YAML (a missing key and a
key with a null value are both modelled as none). -/
structure RawWeb where
  api_v3_site_url : Option String := none
  http_referrer : Option String := none
  http_referer : Option String := none
  http_user_agent : Option String := none
  cookies : Option (List (String × Yaml)) := none

/-- The database.dsn mapping as loaded from YAML. -/
structure RawDsn where
  host : Option String := none
  user : Option String := none
  database : Option String := none
  password : Option String := none
deriving DecidableEq, Repr

/-- The database mapping as loaded from YAML. -/
structure RawDatabase where
  dsn : Option RawDsn := none

/-- The whole YAML document the config file holds. -/
structure RawConfig where
  solaredge_web : Option RawWeb := none
  database : Option RawDatabase := none

/-- The validated configuration load_config_yaml returns. -/
structure Config where
  api_v3_site_url : String
  http_referer : Option String
  http_user_agent : String
  cookies : List (String × String)
  db_dsn : Option RawDsn

/-- Python truthiness of an optional string. -/
def truthyOS : Option String → Bool
  | none => false
  | some s => s != ""

/-- The hard-coded default User-Agent of the source. -/
def defaultUA : String :=
  "Mozilla/5.0 (X11; Linux x86_64) AppleWebKit/537.36 " ++
    "(KHTML, like Gecko) Chrome/88.0.4324.96 Safari/537.36"

/-- Value of a base64-alphabet character. -/
def b64val (c : Char) : Option Nat :=
  if 'A' ≤ c && c ≤ 'Z' then some (c.toNat - 65)
  else if 'a' ≤ c && c ≤ 'z' then some (c.toNat - 97 + 26)
  else if '0' ≤ c && c ≤ '9' then some (c.toNat - 48 + 52)
  else if c == '+' then some 62
  else if c == '/' then some 63
  else none

/-- Reassemble six-bit groups into bytes; a leftover single group cannot
be decoded. -/
def b64bytes : List Nat → Option (List Nat)
  | [] => some []
  | [_] => none
  | [a, b] => some [a * 4 + b / 16]
  | [a, b, c] => some [a * 4 + b / 16, b % 16 * 16 + c / 4]
  | a :: b :: c :: d :: rest =>
    (b64bytes rest).map
      (fun bs => (a * 4 + b / 16) :: (b % 16 * 16 + c / 4) :: (c % 4 * 64 + d) :: bs)

/-- Model of base64.b64decode followed by bytes.decode of ascii:
characters outside the alphabet are discarded, data after the first
padding character is ignored, a leftover single data character is a
binascii error, and a decoded byte over 127 fails the ascii decode.
(Python additionally rejects certain padding shapes; no claim depends on
those.) -/
def b64decode (s : String) : Except PyErr String :=
  let vals := (s.data.filter (fun c => (b64val c).isSome || c == '=')).takeWhile
    (fun c => c != '=')
  match b64bytes (vals.filterMap b64val) with
  | none => .error .binasciiError
  | some bs =>
    if bs.all (fun b => b < 128) then .ok (String.mk (bs.map Char.ofNat))
    else .error .unicodeDecodeError

/-- Model of load_config_yaml: asserts a truthy site URL, the absence of
a truthy http_referrer typo key and a truthy (present, non-empty) cookie
mapping; casts every cookie value to a string; decodes a truthy
database.dsn.password from base64 in place. -/
def load_config_yaml (c : RawConfig) : Except PyErr Config :=
  let web := c.solaredge_web.getD {}
  if !truthyOS web.api_v3_site_url then .error .assertionError
  else if truthyOS web.http_referrer then .error .assertionError
  else
    match web.cookies with
    | none => .error .assertionError
    | some cs =>
      if cs.isEmpty then .error .assertionError
      else
        let base : Config :=
          { api_v3_site_url := web.api_v3_site_url.getD (""),
            http_referer := web.http_referer,
            http_user_agent := web.http_user_agent.getD defaultUA,
            cookies := cs.map (fun kv => (kv.1, pyStr kv.2)),
            db_dsn := match c.database with
                      | none => none
                      | some db => db.dsn }
        match c.database with
        | none => .ok base
        | some db =>
          match db.dsn with
          | none => .ok base
          | some d =>
            match d.password with
            | none => .ok base
            | some p =>
              if p == "" then .ok base
              else
                match b64decode p with
                | .error e => .error e
                | .ok dec =>
                  .ok { base with db_dsn := some { d with password := some dec } }

/-- The metrics table: rows are (table, time, location_id, value); an
injectable failure models database errors other than a constraint
conflict. -/
structure Db where
  rows : List (String × String × Nat × PyNum)
  failure : Option DbErr
deriving DecidableEq, Repr

/-- cursor.execute of the INSERT: a duplicate (time, location_id) in the
table violates the unique constraint; an injected failure raises as
itself. -/
def cursor_execute (db : Db) (table t : String) (loc : Nat) (v : PyNum) :
    Except DbErr Db :=
  match db.failure with
  | some e => .error e
  | none =>
    if db.rows.any (fun r => r.1 == table && r.2.1 == t && r.2.2.1 == loc) then
      .error .integrityError
    else .ok { db with rows := db.rows ++ [(table, t, loc, v)] }

/-- Model of execute_or_ignore: the transaction of the with-block rolls
back on error, psycopg2.IntegrityError is swallowed, anything else
propagates. -/
def execute_or_ignore (db : Db) (table t : String) (loc : Nat) (v : PyNum) :
    Except DbErr Db :=
  match cursor_execute db table t loc v with
  | .error .integrityError => .ok db
  | .error e => .error e
  | .ok db2 => .ok db2

/-- Two-digit zero-padded decimal. -/
def pad2 (n : Nat) : String :=
  if n < 10 then ("0") ++ toString n else toString n

/-- Four-digit zero-padded decimal. -/
def pad4 (n : Nat) : String :=
  if n < 10 then ("000") ++ toString n
  else if n < 100 then ("00") ++ toString n
  else if n < 1000 then ("0") ++ toString n
  else toString n

/-- strftime with the %Y-%m-%d %H:%M:%S format of the source. -/
def strftime_YmdHMS (dt : NaiveDT) : String :=
  pad4 dt.year ++ ("-") ++ pad2 dt.month ++ ("-") ++ pad2 dt.day ++ (" ") ++
    pad2 dt.hour ++ (":") ++ pad2 dt.minute ++ (":") ++ pad2 dt.second

/-- Python's division of the pass-through lastDayEnergy value by the
float 1000.0 (bools divide as 0 or 1; any other type raises TypeError). -/
def pyDiv1000 : Json → Except PyErr PyNum
  | .num q => .ok ⟨q.num, q.den * 1000⟩
  | .bool b => .ok ⟨if b then 1 else 0, 1000⟩
  | _ => .error .typeError

/-- The database-write step of insert_latest_into_db on a parsed reading:
one row, table power_kwh, location id 15, value lastDayEnergy / 1000,
keyed by the strftime-rendered timestamp; only the constraint conflict is
swallowed. -/
def insert_latest_write (parsed : Parsed) (db : Db) : Except PyErr Db :=
  match pyDiv1000 parsed.lastDayEnergy with
  | .error e => .error e
  | .ok v =>
    match execute_or_ignore db ("power_kwh")
        (strftime_YmdHMS parsed.lastUpdateTime) 15 v with
    | .error e => .error (.dbError e)
    | .ok db2 => .ok db2

/-- Modelled from the spec: the repository's second, near-duplicate script
copy (the insert variant, not present under src/) has the same freshness
policy with a 5-minute threshold in place of 15 minutes. -/
def fetch_reasonably_fresh_data_insert (w : World) :
    Except PyErr ((Parsed × Bool) × World) :=
  match fetch_cached_api_v3_site false w with
  | .error e => .error e
  | .ok (text, age, w1) =>
    match parse_api_v3_js text with
    | .error e => .error e
    | .ok parsed =>
      if pyEqZero parsed.currentPower && decide (age < 5 * 60) then
        .ok ((parsed, false), w1)
      else
        match fetch_cached_api_v3_site true w1 with
        | .error e => .error e
        | .ok (text2, _, w2) =>
          match parse_api_v3_js text2 with
          | .error e => .error e
          | .ok p2 => .ok ((p2, true), w2)

/-- A concrete raw payload with currentPower zero (a quiescent night
reading), used as the cached body in concrete freshness runs. -/
def examplePayloadZero : String :=
  "\x7b\"fieldOverview\": \x7b\"fieldOverview\": \x7b" ++
    "\"lastUpdateTime\": \"2022-02-06 14:33:00.0\", " ++
    "\"lifeTimeData\": \x7b\"energy\": 4352049\x7d, " ++
    "\"lastDayData\": \x7b\"energy\": 1446\x7d, " ++
    "\"currentPower\": \x7b\"currentPower\": 0, \"unit\": \"W\"\x7d\x7d\x7d\x7d"

/-- The reading examplePayloadZero parses to. -/
def exampleParsedZero : Parsed :=
  ⟨⟨2022, 2, 6, 13, 33, 0⟩, .num ⟨4352049, 1⟩, .num ⟨1446, 1⟩, .num ⟨0, 1⟩⟩

/-- Helper: parse_api_v3_js on a loaded payload of the documented shape
reduces to the timestamp computation followed by the unit assertion. -/
theorem parse_loaded_mk (ts : String) (lte lde cp : Json) (u : String) :
    parse_loaded (mkPayload ts lte lde cp u) =
      exBind (parse_ts ts) (fun utc =>
        if u == "W" then .ok ⟨utc, lte, lde, cp⟩
        else .error .assertionError) := rfl

/-- C1: the claim says fetch_api_v3_site raises after the retry if and
only if the RETRY response fails the status/currentPower check, and
otherwise returns the retry body.  The source re-checks resp.text, the
first body, at line 258, so on a first response that is HTTP 200 with a
body lacking currentPower it raises even though the retry response
passes the check: the code contradicts the claim (and the spec's stated
retry contract), a copy-paste slip that makes the retry pointless on the
invalid-body path. -/
theorem claim_c1_retry_check :
    fetch_api_v3_site [("SolarEdge_SSO-1.4", "x")] none
        ⟨200, "<html>Sign in</html>"⟩
        ⟨200, "\x7b\"currentPower\": 1\x7d"⟩ =
      .error (.fetchValueError ⟨200, "<html>Sign in</html>"⟩
        ⟨200, "\x7b\"currentPower\": 1\x7d"⟩
        "<html>Sign in</html>" "\x7b\"currentPower\": 1\x7d") ∧
    strIn "currentPower" "\x7b\"currentPower\": 1\x7d" = true := by
  exact ⟨rfl, rfl⟩

/-- C9: parse_api_v3_js is a deterministic pure function of its input
text: it is embedded as a plain function with no world state, and equal
inputs give equal parses. -/
theorem claim_c9_deterministic (t1 t2 : String) (h : t1 = t2) :
    parse_api_v3_js t1 = parse_api_v3_js t2 := by
  rw [h]

/-- Witness for C9 at a concrete raw JSON text. -/
theorem claim_c9_witness :
    parse_api_v3_js "\x7b\"a\": 1\x7d" = parse_api_v3_js "\x7b\"a\": 1\x7d" :=
  claim_c9_deterministic _ _ rfl

/-- C10: a cache file whose body is empty or all whitespace makes
fetch_cached_api_v3_site raise IndexError (indexing the stripped text);
that exception is not in the caught set, so there is no fallback fetch. -/
theorem claim_c10_empty_cache_indexerror (w : World) (text : String)
    (mt : Int) (hc : w.cache = some (text, mt))
    (hw : text.data.dropWhile (fun c => isPySpace c) = []) :
    fetch_cached_api_v3_site false w = .error .indexError := by
  simp [fetch_cached_api_v3_site, hc, hw]

/-- Witness for C10: a whitespace-only cache body. -/
theorem claim_c10_witness :
    fetch_cached_api_v3_site false ⟨some ("  \n", 100), 700, [.ok "x"]⟩ =
      .error .indexError :=
  claim_c10_empty_cache_indexerror _ "  \n" 100 rfl rfl

/-- C5: a cache body whose first non-whitespace character is not an
opening brace is treated as corrupt: a forced live fetch runs, the cache
file is overwritten with the new body, and the new text is returned with
age zero; with clear_cache set the cache read is skipped and the same
fetch-overwrite-age-zero path runs regardless of the cache state. -/
theorem claim_c5_cache_selfheal :
    (∀ (w : World) (text : String) (mt : Int) (c : Char) (cs : List Char)
        (nt : String) (fs : List (Except PyErr String)),
      w.cache = some (text, mt) →
      text.data.dropWhile (fun x => isPySpace x) = c :: cs →
      c ≠ lbraceChar →
      w.fetches = .ok nt :: fs →
      fetch_cached_api_v3_site false w =
        .ok (nt, 0, ⟨some (nt, w.now), w.now, fs⟩)) ∧
    (∀ (w : World) (nt : String) (fs : List (Except PyErr String)),
      w.fetches = .ok nt :: fs →
      fetch_cached_api_v3_site true w =
        .ok (nt, 0, ⟨some (nt, w.now), w.now, fs⟩)) := by
  constructor
  · intro w text mt c cs nt fs hc hh hcl hf
    simp [fetch_cached_api_v3_site, hc, hh, fetchIntoCache, popFetch, hf,
      bne_iff_ne, hcl]
  · intro w nt fs hf
    simp [fetch_cached_api_v3_site, fetchIntoCache, popFetch, hf]

/-- Witness for C5 at a concrete corrupt cache and a concrete forced
refresh. -/
theorem claim_c5_witness :
    fetch_cached_api_v3_site false
        ⟨some ("<html>err</html>", 100), 700, [.ok "\x7bnew\x7d"]⟩ =
      .ok ("\x7bnew\x7d", 0, ⟨some ("\x7bnew\x7d", 700), 700, []⟩) ∧
    fetch_cached_api_v3_site true
        ⟨some ("\x7bold\x7d", 100), 700, [.ok "\x7bnew\x7d"]⟩ =
      .ok ("\x7bnew\x7d", 0, ⟨some ("\x7bnew\x7d", 700), 700, []⟩) :=
  ⟨claim_c5_cache_selfheal.1 _ "<html>err</html>" 100 '<' _ "\x7bnew\x7d" []
      rfl rfl (by decide) rfl,
    claim_c5_cache_selfheal.2 _ "\x7bnew\x7d" [] rfl⟩

/-- Helper: folding the cookie-dict insertion over a jar with pairwise
distinct names, starting from a dict whose keys are disjoint from the
jar's, appends the jar unchanged. -/
theorem foldl_upsertCookie (jar : List (String × String)) :
    ∀ acc : List (String × String),
    (jar.map Prod.fst).Nodup →
    (∀ p ∈ jar, ∀ q ∈ acc, p.1 ≠ q.1) →
    jar.foldl upsertCookie acc = acc ++ jar := by
  induction jar with
  | nil => intro acc _ _; simp
  | cons kv rest ih =>
    intro acc hnd hdisj
    rw [List.foldl_cons]
    have hany : acc.any (fun p => p.1 == kv.1) = false := by
      rw [List.any_eq_false]
      intro q hq
      have : kv.1 ≠ q.1 := hdisj kv (by simp) q hq
      simp [this.symm]
    have hup : upsertCookie acc kv = acc ++ [kv] := by
      simp [upsertCookie, hany]
    rw [hup, ih (acc ++ [kv])]
    · simp
    · exact (List.nodup_cons.mp (by simpa using hnd)).2
    · intro p hp q hq
      rcases List.mem_append.mp hq with hq1 | hq2
      · exact hdisj p (by simp [hp]) q hq1
      · have hqkv : q = kv := by simpa using hq2
        have : kv.1 ∉ rest.map Prod.fst :=
          (List.nodup_cons.mp (by simpa using hnd)).1
        subst hqkv
        intro hcontra
        exact this (by rw [← hcontra]; exact List.mem_map_of_mem Prod.fst hp)

/-- C7: storing a session's cookies and restoring them yields the same
cookie set (names are unique in a requests jar seeded from a dict), and
restoring with no cookie-jar file present yields an empty session. -/
theorem claim_c7_cookie_roundtrip (jar : List (String × String))
    (h : (jar.map Prod.fst).Nodup) :
    restore_session (store_session jar) = jar ∧
      restore_session none = [] := by
  constructor
  · show cookiejar_from_dict (dict_from_cookiejar jar) = jar
    unfold cookiejar_from_dict dict_from_cookiejar
    simpa using foldl_upsertCookie jar [] h (by simp)
  · rfl

/-- Witness for C7 at a concrete cookie set. -/
theorem claim_c7_witness :
    restore_session (store_session
        [("SolarEdge_SSO-1.4", "011"), ("SolarEdge_Field_ID", "7")]) =
      [("SolarEdge_SSO-1.4", "011"), ("SolarEdge_Field_ID", "7")] ∧
    restore_session none = [] :=
  claim_c7_cookie_roundtrip _ (by decide)

/-- C2: with a cached payload whose parse has currentPower exactly zero
and whose age is strictly under 15 minutes, fetch_reasonably_fresh_data
returns the cached reading with the fresh flag False and performs no
fetch; otherwise it forces a live re-fetch, re-parses, and returns the
new reading with the fresh flag True.  The insert-variant script copy
(modelled from the spec) behaves identically with a 5-minute threshold. -/
theorem claim_c2_freshness :
    (∀ (w : World) (text : String) (mt : Int) (parsed : Parsed),
      w.cache = some (text, mt) →
      (text.data.dropWhile (fun x => isPySpace x)).head? = some lbraceChar →
      parse_api_v3_js text = .ok parsed →
      pyEqZero parsed.currentPower = true →
      w.now - mt < 900 →
      fetch_reasonably_fresh_data w = .ok ((parsed, false), w)) ∧
    (∀ (w : World) (text : String) (mt : Int) (parsed : Parsed)
        (nt : String) (fs : List (Except PyErr String)) (p2 : Parsed),
      w.cache = some (text, mt) →
      (text.data.dropWhile (fun x => isPySpace x)).head? = some lbraceChar →
      parse_api_v3_js text = .ok parsed →
      (pyEqZero parsed.currentPower = false ∨ ¬ w.now - mt < 900) →
      w.fetches = .ok nt :: fs →
      parse_api_v3_js nt = .ok p2 →
      fetch_reasonably_fresh_data w =
        .ok ((p2, true), ⟨some (nt, w.now), w.now, fs⟩)) ∧
    (∀ (w : World) (text : String) (mt : Int) (parsed : Parsed),
      w.cache = some (text, mt) →
      (text.data.dropWhile (fun x => isPySpace x)).head? = some lbraceChar →
      parse_api_v3_js text = .ok parsed →
      pyEqZero parsed.currentPower = true →
      w.now - mt < 300 →
      fetch_reasonably_fresh_data_insert w = .ok ((parsed, false), w)) ∧
    (∀ (w : World) (text : String) (mt : Int) (parsed : Parsed)
        (nt : String) (fs : List (Except PyErr String)) (p2 : Parsed),
      w.cache = some (text, mt) →
      (text.data.dropWhile (fun x => isPySpace x)).head? = some lbraceChar →
      parse_api_v3_js text = .ok parsed →
      (pyEqZero parsed.currentPower = false ∨ ¬ w.now - mt < 300) →
      w.fetches = .ok nt :: fs →
      parse_api_v3_js nt = .ok p2 →
      fetch_reasonably_fresh_data_insert w =
        .ok ((p2, true), ⟨some (nt, w.now), w.now, fs⟩)) := by
  have hcached : ∀ (w : World) (text : String) (mt : Int),
      w.cache = some (text, mt) →
      (text.data.dropWhile (fun x => isPySpace x)).head? = some lbraceChar →
      fetch_cached_api_v3_site false w = .ok (text, w.now - mt, w) := by
    intro w text mt hc hh
    cases hdw : text.data.dropWhile (fun x => isPySpace x) with
    | nil => rw [hdw] at hh; simp at hh
    | cons c cs =>
      rw [hdw] at hh
      simp only [List.head?_cons, Option.some.injEq] at hh
      subst hh
      simp [fetch_cached_api_v3_site, hc, hdw]
  refine ⟨?_, ?_, ?_, ?_⟩
  · intro w text mt parsed hc hh hp hz hage
    simp [fetch_reasonably_fresh_data, hcached w text mt hc hh, hp, hz, hage]
  · intro w text mt parsed nt fs p2 hc hh hp hcond hf hp2
    have hforced : fetch_cached_api_v3_site true w =
        .ok (nt, 0, ⟨some (nt, w.now), w.now, fs⟩) := by
      simp [fetch_cached_api_v3_site, fetchIntoCache, popFetch, hf]
    rcases hcond with hz | hage
    · simp [fetch_reasonably_fresh_data, hcached w text mt hc hh, hp, hz,
        hforced, hp2]
    · simp [fetch_reasonably_fresh_data, hcached w text mt hc hh, hp, hage,
        hforced, hp2]
  · intro w text mt parsed hc hh hp hz hage
    simp [fetch_reasonably_fresh_data_insert, hcached w text mt hc hh, hp, hz,
      hage]
  · intro w text mt parsed nt fs p2 hc hh hp hcond hf hp2
    have hforced : fetch_cached_api_v3_site true w =
        .ok (nt, 0, ⟨some (nt, w.now), w.now, fs⟩) := by
      simp [fetch_cached_api_v3_site, fetchIntoCache, popFetch, hf]
    rcases hcond with hz | hage
    · simp [fetch_reasonably_fresh_data_insert, hcached w text mt hc hh, hp,
        hz, hforced, hp2]
    · simp [fetch_reasonably_fresh_data_insert, hcached w text mt hc hh, hp,
        hage, hforced, hp2]
set_option maxRecDepth 100000 in
/-- Witness for C2: a zero-power cache aged 10 minutes is served without
a fetch; aged 20 minutes it forces one; the insert variant does the same
around its 5-minute threshold. -/
theorem claim_c2_witness :
    fetch_reasonably_fresh_data ⟨some (examplePayloadZero, 0), 600, []⟩ =
      .ok ((exampleParsedZero, false), ⟨some (examplePayloadZero, 0), 600, []⟩) ∧
    fetch_reasonably_fresh_data
        ⟨some (examplePayloadZero, 0), 1200, [.ok examplePayloadZero]⟩ =
      .ok ((exampleParsedZero, true),
        ⟨some (examplePayloadZero, 1200), 1200, []⟩) ∧
    fetch_reasonably_fresh_data_insert ⟨some (examplePayloadZero, 0), 200, []⟩ =
      .ok ((exampleParsedZero, false), ⟨some (examplePayloadZero, 0), 200, []⟩) ∧
    fetch_reasonably_fresh_data_insert
        ⟨some (examplePayloadZero, 0), 600, [.ok examplePayloadZero]⟩ =
      .ok ((exampleParsedZero, true),
        ⟨some (examplePayloadZero, 600), 600, []⟩) :=
  ⟨claim_c2_freshness.1 _ examplePayloadZero 0 exampleParsedZero
      rfl rfl rfl rfl (by decide),
    claim_c2_freshness.2.1 _ examplePayloadZero 0 exampleParsedZero
      examplePayloadZero [] exampleParsedZero
      rfl rfl rfl (Or.inr (by decide)) rfl rfl,
    claim_c2_freshness.2.2.1 _ examplePayloadZero 0 exampleParsedZero
      rfl rfl rfl rfl (by decide),
    claim_c2_freshness.2.2.2 _ examplePayloadZero 0 exampleParsedZero
      examplePayloadZero [] exampleParsedZero
      rfl rfl rfl (Or.inr (by decide)) rfl rfl⟩

/-- C3: on a payload of the documented shape whose truncated timestamp
parses and localizes, parse_api_v3_js returns exactly the four fields:
the timestamp truncated at the first dot, read as Europe/Amsterdam civil
time and converted to UTC, and the three numeric fields passed through
unchanged. -/
theorem claim_c3_parse_fields (text ts : String) (lte lde cp : Json)
    (dt : NaiveDT) (loc : NaiveDT × Int)
    (hload : loads text = .ok (mkPayload ts lte lde cp ("W")))
    (hlen : (pySplitDot ts).length = 19)
    (hts : strptime19 (pySplitDot ts) = .ok dt)
    (hloc : dt_naive_to_local dt = .ok loc) :
    parse_api_v3_js text = .ok ⟨dt_local_to_utc loc, lte, lde, cp⟩ := by
  unfold parse_api_v3_js
  rw [hload]
  show parse_loaded (mkPayload ts lte lde cp ("W")) = _
  rw [parse_loaded_mk]
  simp [parse_ts, hlen, hts, hloc, exBind]

set_option maxRecDepth 100000 in
/-- Witness for C3: the spec's example, winter Amsterdam local time
2022-02-06 14:33:00.0 yields 2022-02-06T13:33:00Z, energies and power
passed through. -/
theorem claim_c3_witness :
    parse_api_v3_js ("\x7b\"siteClassType\": \"DEFAULT\", " ++
        "\"fieldOverview\": \x7b\"uris\": \x7b\x7d, " ++
        "\"fieldOverview\": \x7b" ++
        "\"lastUpdateTime\": \"2022-02-06 14:33:00.0\", " ++
        "\"lifeTimeData\": \x7b\"fieldId\": \"1\", \"energy\": 4352049\x7d, " ++
        "\"lastDayData\": \x7b\"fieldId\": \"1\", \"energy\": 1446\x7d, " ++
        "\"solarField\": \x7b\"id\": \"1\"\x7d, " ++
        "\"currentPower\": \x7b\"currentPower\": 306.36063, " ++
        "\"unit\": \"W\"\x7d\x7d\x7d\x7d") =
      .ok ⟨⟨2022, 2, 6, 13, 33, 0⟩, .num ⟨4352049, 1⟩, .num ⟨1446, 1⟩,
        .num ⟨30636063, 100000⟩⟩ :=
  claim_c3_parse_fields _ ("2022-02-06 14:33:00.0")
    (.num ⟨4352049, 1⟩) (.num ⟨1446, 1⟩) (.num ⟨30636063, 100000⟩)
    ⟨2022, 2, 6, 14, 33, 0⟩ (⟨2022, 2, 6, 14, 33, 0⟩, 3600) rfl rfl rfl rfl

/-- C4: a payload whose timestamp, truncated at the first dot, is not
exactly 19 characters, or whose currentPower unit differs from the string
W, never parses into a reading: parse_api_v3_js raises. -/
theorem claim_c4_parse_rejects (text ts : String) (lte lde cp : Json)
    (u : String)
    (hload : loads text = .ok (mkPayload ts lte lde cp u))
    (h : (pySplitDot ts).length ≠ 19 ∨ u ≠ "W") :
    exIsOk (parse_api_v3_js text) = false := by
  unfold parse_api_v3_js
  rw [hload]
  show exIsOk (parse_loaded (mkPayload ts lte lde cp u)) = false
  rw [parse_loaded_mk]
  rcases h with h | h
  · have hb : ((pySplitDot ts).length == 19) = false := by
      simpa using h
    have hpt : parse_ts ts = .error .assertionError := by
      simp [parse_ts, hb]
    simp [hpt, exBind, exIsOk]
  · cases hts : parse_ts ts with
    | error e => simp [hts, exBind, exIsOk]
    | ok dt =>
      have hb : (u == "W") = false := by simpa using h
      simp [hts, exBind, exIsOk, hb]

set_option maxRecDepth 100000 in
/-- Witness for C4: a unit of kW and a 17-character timestamp each make
the parse fail. -/
theorem claim_c4_witness :
    exIsOk (parse_api_v3_js ("\x7b\"siteClassType\": \"DEFAULT\", " ++
        "\"fieldOverview\": \x7b\"uris\": \x7b\x7d, " ++
        "\"fieldOverview\": \x7b" ++
        "\"lastUpdateTime\": \"2022-02-06 14:33:00.0\", " ++
        "\"lifeTimeData\": \x7b\"fieldId\": \"1\", \"energy\": 1\x7d, " ++
        "\"lastDayData\": \x7b\"fieldId\": \"1\", \"energy\": 1\x7d, " ++
        "\"solarField\": \x7b\"id\": \"1\"\x7d, " ++
        "\"currentPower\": \x7b\"currentPower\": 1, " ++
        "\"unit\": \"kW\"\x7d\x7d\x7d\x7d")) = false ∧
    exIsOk (parse_api_v3_js ("\x7b\"siteClassType\": \"DEFAULT\", " ++
        "\"fieldOverview\": \x7b\"uris\": \x7b\x7d, " ++
        "\"fieldOverview\": \x7b" ++
        "\"lastUpdateTime\": \"2022-2-6 14:33:00\", " ++
        "\"lifeTimeData\": \x7b\"fieldId\": \"1\", \"energy\": 1\x7d, " ++
        "\"lastDayData\": \x7b\"fieldId\": \"1\", \"energy\": 1\x7d, " ++
        "\"solarField\": \x7b\"id\": \"1\"\x7d, " ++
        "\"currentPower\": \x7b\"currentPower\": 1, " ++
        "\"unit\": \"W\"\x7d\x7d\x7d\x7d")) = false :=
  ⟨claim_c4_parse_rejects _ ("2022-02-06 14:33:00.0")
      (.num ⟨1, 1⟩) (.num ⟨1, 1⟩) (.num ⟨1, 1⟩) ("kW")
      rfl (Or.inr (by decide)),
    claim_c4_parse_rejects _ ("2022-2-6 14:33:00")
      (.num ⟨1, 1⟩) (.num ⟨1, 1⟩) (.num ⟨1, 1⟩) ("W")
      rfl (Or.inl (by decide))⟩

/-- C6: the duplicate-key insert is swallowed (the caller sees success
and the table is unchanged), a new key is inserted as the row
(power_kwh, rendered timestamp, location 15, lastDayEnergy / 1000), and
any database error other than the constraint conflict propagates. -/
theorem claim_c6_insert_conflict :
    (∀ (parsed : Parsed) (db : Db) (v : PyNum),
      db.failure = none →
      pyDiv1000 parsed.lastDayEnergy = .ok v →
      db.rows.any (fun r => r.1 == "power_kwh" &&
        r.2.1 == strftime_YmdHMS parsed.lastUpdateTime &&
        r.2.2.1 == 15) = false →
      insert_latest_write parsed db =
        .ok { db with rows := db.rows ++
          [("power_kwh", strftime_YmdHMS parsed.lastUpdateTime, 15, v)] }) ∧
    (∀ (parsed : Parsed) (db : Db) (v : PyNum),
      db.failure = none →
      pyDiv1000 parsed.lastDayEnergy = .ok v →
      db.rows.any (fun r => r.1 == "power_kwh" &&
        r.2.1 == strftime_YmdHMS parsed.lastUpdateTime &&
        r.2.2.1 == 15) = true →
      insert_latest_write parsed db = .ok db) ∧
    (∀ (parsed : Parsed) (db : Db) (v : PyNum),
      db.failure = some .otherError →
      pyDiv1000 parsed.lastDayEnergy = .ok v →
      insert_latest_write parsed db = .error (.dbError .otherError)) := by
  refine ⟨?_, ?_, ?_⟩
  · intro parsed db v hf hv hn
    simp [insert_latest_write, hv, execute_or_ignore, cursor_execute, hf, hn]
  · intro parsed db v hf hv hy
    simp [insert_latest_write, hv, execute_or_ignore, cursor_execute, hf, hy]
  · intro parsed db v hf hv
    simp [insert_latest_write, hv, execute_or_ignore, cursor_execute, hf]

/-- Witness for C6: inserting a fresh reading into an empty table adds
the converted row; inserting it again is swallowed and changes nothing;
an injected non-conflict error propagates. -/
theorem claim_c6_witness :
    insert_latest_write exampleParsedZero ⟨[], none⟩ =
      .ok ⟨[("power_kwh", "2022-02-06 13:33:00", 15, ⟨1446, 1000⟩)], none⟩ ∧
    insert_latest_write exampleParsedZero
        ⟨[("power_kwh", "2022-02-06 13:33:00", 15, ⟨1446, 1000⟩)], none⟩ =
      .ok ⟨[("power_kwh", "2022-02-06 13:33:00", 15, ⟨1446, 1000⟩)], none⟩ ∧
    insert_latest_write exampleParsedZero ⟨[], some .otherError⟩ =
      .error (.dbError .otherError) :=
  ⟨claim_c6_insert_conflict.1 exampleParsedZero ⟨[], none⟩ ⟨1446, 1000⟩
      rfl rfl rfl,
    claim_c6_insert_conflict.2.1 exampleParsedZero
      ⟨[("power_kwh", "2022-02-06 13:33:00", 15, ⟨1446, 1000⟩)], none⟩
      ⟨1446, 1000⟩ rfl rfl rfl,
    claim_c6_insert_conflict.2.2 exampleParsedZero ⟨[], some .otherError⟩
      ⟨1446, 1000⟩ rfl rfl⟩

/-- C8 (amended): load_config_yaml fails when the mandatory site-URL key
is absent, when the typo key http_referrer carries a truthy (non-empty)
value — presence with an empty value passes, see the counterexample —
or when the cookie mapping is absent or empty; on success every cookie
value is cast to a string and a present non-empty database.dsn.password
is replaced in place by its base64 decoding. -/
theorem claim_c8_config_validation :
    (∀ c : RawConfig, (c.solaredge_web.getD {}).api_v3_site_url = none →
      exIsOk (load_config_yaml c) = false) ∧
    (∀ (c : RawConfig) (web : RawWeb) (s : String),
      c.solaredge_web = some web → web.http_referrer = some s → s ≠ "" →
      exIsOk (load_config_yaml c) = false) ∧
    (∀ (c : RawConfig) (web : RawWeb),
      c.solaredge_web = some web →
      (web.cookies = none ∨ web.cookies = some []) →
      exIsOk (load_config_yaml c) = false) ∧
    (∀ (url : String) (refOpt uaOpt : Option String)
        (k : String × Yaml) (ck : List (String × Yaml))
        (host usr dbn : Option String) (p dec : String),
      url ≠ "" → p ≠ "" → b64decode p = .ok dec →
      load_config_yaml
          ⟨some ⟨some url, none, refOpt, uaOpt, some (k :: ck)⟩,
            some ⟨some ⟨host, usr, dbn, some p⟩⟩⟩ =
        .ok ⟨url, refOpt, uaOpt.getD defaultUA,
          (k :: ck).map (fun kv => (kv.1, pyStr kv.2)),
          some ⟨host, usr, dbn, some dec⟩⟩) := by
  refine ⟨?_, ?_, ?_, ?_⟩
  · intro c h
    simp [load_config_yaml, h, truthyOS, exIsOk]
  · intro c web s hcw hr hs
    cases htr : truthyOS web.api_v3_site_url with
    | false => simp [load_config_yaml, hcw, htr, exIsOk]
    | true =>
      have hrt : truthyOS web.http_referrer = true := by
        simp [hr, truthyOS, hs]
      simp [load_config_yaml, hcw, htr, hrt, exIsOk]
  · intro c web hcw hck
    cases htr : truthyOS web.api_v3_site_url with
    | false => simp [load_config_yaml, hcw, htr, exIsOk]
    | true =>
      cases hrf : truthyOS web.http_referrer with
      | true => simp [load_config_yaml, hcw, htr, hrf, exIsOk]
      | false =>
        rcases hck with h1 | h2
        · simp [load_config_yaml, hcw, htr, hrf, h1, exIsOk]
        · simp [load_config_yaml, hcw, htr, hrf, h2, exIsOk]
  · intro url refOpt uaOpt k ck host usr dbn p dec hurl hp hdec
    have h1 : truthyOS (some url) = true := by simp [truthyOS, hurl]
    have h2 : (p == "") = false := by
      simpa using hp
    simp [load_config_yaml, h1, truthyOS, h2, hdec, hurl]

/-- Counterexample for C8: the claim as written says the loader fails
whenever http_referrer is present, but presence with an empty value
passes the truthiness assert of the source, so this configuration loads
successfully. -/
theorem claim_c8_counterexample :
    exIsOk (load_config_yaml
      ⟨some ⟨some ("http://x"), some (""), none, none,
        some [("SolarEdge_SSO-1.4", .s ("y"))]⟩, none⟩) = true := rfl

/-- Witness for C8: each failure mode at a concrete configuration, and a
concrete successful load decoding the sample password and casting an
integer cookie. -/
theorem claim_c8_witness :
    exIsOk (load_config_yaml ⟨none, none⟩) = false ∧
    exIsOk (load_config_yaml ⟨some ⟨some ("u"), some ("z"), none, none,
      some [("a", .s ("b"))]⟩, none⟩) = false ∧
    exIsOk (load_config_yaml ⟨some ⟨some ("u"), none, none, none, none⟩,
      none⟩) = false ∧
    load_config_yaml ⟨some ⟨some ("http://x"), none, none, none,
        some [("SolarEdge_Field_ID", .i 42)]⟩,
        some ⟨some ⟨none, none, none, some ("cGFzc3dvcmQK")⟩⟩⟩ =
      .ok ⟨("http://x"), none, defaultUA, [("SolarEdge_Field_ID", "42")],
        some ⟨none, none, none, some ("password\n")⟩⟩ :=
  ⟨claim_c8_config_validation.1 ⟨none, none⟩ rfl,
    claim_c8_config_validation.2.1 _ ⟨some ("u"), some ("z"), none, none,
      some [("a", .s ("b"))]⟩ ("z") rfl rfl (by decide),
    claim_c8_config_validation.2.2.1 _ ⟨some ("u"), none, none, none, none⟩
      rfl (Or.inl rfl),
    claim_c8_config_validation.2.2.2 ("http://x") none none
      ("SolarEdge_Field_ID", .i 42) [] none none none ("cGFzc3dvcmQK")
      ("password\n") (by decide) (by decide) rfl⟩
